import Mathlib

/-!
Shallow embedding of `src/main.go` of the `site_rss_spider` repository:
an HTML-to-RSS scraper with a TTL cache.  Go structs become Lean
structures, the Go map `cache` becomes an association list, `time.Time`
becomes a `Nat` (nanoseconds), and the two external collaborators —
`goquery.NewDocument` (the fetch-and-query primitive) and Go's
`time.Parse`/`time.Format` composite — are passed in as function
parameters, mirroring the spec's "opaque capability" treatment.
The `go refreshCache(site)` statement in the handler is modelled as a
boolean `refreshTriggered` event in the handler's outcome: the handler
itself returns without waiting and without applying the refresh's effect.
-/

/-- RSS `Item` struct from `main.go` (title, link, description,
pubDate with omitempty, guid). The Go zero value of `PubDate` is the
empty string, which the XML encoder omits. -/
structure Item where
  title : String
  link : String
  description : String
  pubDate : String
  guid : String
  deriving Repr, DecidableEq

/-- RSS `Channel` struct from `main.go`. -/
structure Channel where
  title : String
  link : String
  description : String
  items : List Item
  deriving Repr, DecidableEq

/-- `RSSFeed` struct from `main.go` (version attribute plus channel). -/
structure RSSFeed where
  version : String
  channel : Channel
  deriving Repr, DecidableEq

/-- `SiteConfig` struct from `main.go`. -/
structure SiteConfig where
  name : String
  url : String
  itemSelector : String
  titleSelector : String
  linkSelector : String
  descSelector : String
  dateSelector : String
  dateFormat : String
  deriving Repr, DecidableEq

/-- `FeedCache` struct from `main.go`: a feed plus its absolute expiry
time. Time is modelled as `Nat` nanoseconds. -/
structure FeedCache where
  feed : RSSFeed
  expireAt : Nat
  deriving Repr, DecidableEq

/-- The global `cache` map of `main.go`, modelled as an association
list from site identifier to `FeedCache`. -/
abbrev Cache : Type := List (String × FeedCache)

/-- Go map assignment `cache[site] = entry`: replace the binding if the
key is present, append it otherwise. -/
def cacheInsert (site : String) (entry : FeedCache) : Cache → Cache
  | [] => [(site, entry)]
  | (k, v) :: rest =>
      if k = site then (site, entry) :: rest
      else (k, v) :: cacheInsert site entry rest

/-- Go map read `cache[site]` returning the `ok` flag as an `Option`. -/
def cacheLookup (site : String) : Cache → Option FeedCache
  | [] => none
  | (k, v) :: rest => if k = site then some v else cacheLookup site rest

/-- Nanoseconds in one Go `time.Minute`. -/
def goMinute : Nat := 60 * 1000000000

/-- The TTL used by `refreshCache`: `10 * time.Minute`. -/
def ttl : Nat := 10 * goMinute

/-- One item container matched by the item selector, as seen through
goquery's interface: `s.Find(sel).Text()` (empty string when the
relative selector matches nothing) and `s.Find(sel).Attr("href")`
(`none` when the selection is empty or the attribute is absent). -/
structure ItemContainer where
  text : String → String
  attrHref : String → Option String

/-- A fetched queryable document: `doc.Find(sel)` returns the matched
item containers in document order. -/
structure QueryDoc where
  find : String → List ItemContainer

/-- The two error shapes `fetchAndGenerateRSS` can return: the
formatted unknown-site error and a fetch (goquery) error. -/
inductive FetchError where
  | unknownSite (site : String)
  | fetchFailed (msg : String)
  deriving Repr, DecidableEq

/-- Rendering of a `FetchError` as Go's `%v` would print it:
`fmt.Errorf("site configuration not found: %s", site)` for the first
shape, the underlying error text for the second. -/
def FetchError.message : FetchError → String
  | .unknownSite site => "site configuration not found: " ++ site
  | .fetchFailed msg => msg

/-- The `"example"` entry of `getAllSiteConfig` in `main.go`. -/
def exampleConfig : SiteConfig :=
  { name := "示例网站"
    url := "https://example.com"
    itemSelector := "article h2"
    titleSelector := "article h2"
    linkSelector := "article a"
    descSelector := "article p.summary"
    dateSelector := "article time"
    dateFormat := "2006-01-02" }

/-- The `"abc"` entry of `getAllSiteConfig` in `main.go`. -/
def abcConfig : SiteConfig :=
  { name := "abc网站"
    url := "https://www.abc.com/"
    itemSelector := ".content article"
    titleSelector := "header a"
    linkSelector := "header a"
    descSelector := "p.note"
    dateSelector := "div.meta time"
    dateFormat := "2006-01-02" }

/-- `getAllSiteConfig` from `main.go`: the static site registry. -/
def getAllSiteConfig : List (String × SiteConfig) :=
  [("example", exampleConfig), ("abc", abcConfig)]

/-- `getSiteConfig` from `main.go`: lookup in the registry, the Go
`(config, exists)` pair becoming an `Option`. -/
def getSiteConfig (site : String) : Option SiteConfig :=
  getAllSiteConfig.lookup site

/-- Character-list core of `strStartsWith`. -/
def charsStartWith : List Char → List Char → Bool
  | _, [] => true
  | [], _ :: _ => false
  | c :: cs, d :: ds => if c = d then charsStartWith cs ds else false

/-- Go's `strings.HasPrefix(s, p)`: true iff the characters of `p` head
the characters of `s` (the only use in `main.go` compares against the
ASCII literal `"http"`, where bytes and characters coincide). -/
def strStartsWith (s p : String) : Bool := charsStartWith s.data p.data

/-- Go line `title := s.Find(config.TitleSelector).Text()`. -/
def resolvedTitle (config : SiteConfig) (s : ItemContainer) : String :=
  s.text config.titleSelector

/-- Go line `link, _ := s.Find(config.LinkSelector).Attr("href")`: the
ignored `ok` flag makes a missing href the empty string. -/
def resolvedRawLink (config : SiteConfig) (s : ItemContainer) : String :=
  (s.attrHref config.linkSelector).getD ""

/-- Go lines `if !strings.HasPrefix(link, "http") { link = config.URL +
link }`: a link that does not start with `"http"` gets the site URL
prepended verbatim, with no separator normalization. -/
def resolvedLink (config : SiteConfig) (s : ItemContainer) : String :=
  if strStartsWith (resolvedRawLink config s) ("http")
  then resolvedRawLink config s
  else config.url ++ resolvedRawLink config s

/-- Go line `desc := s.Find(config.DescSelector).Text()`. -/
def resolvedDesc (config : SiteConfig) (s : ItemContainer) : String :=
  s.text config.descSelector

/-- Go line `dateStr := s.Find(config.DateSelector).Text()`. -/
def resolvedDateText (config : SiteConfig) (s : ItemContainer) : String :=
  s.text config.dateSelector

/-- Go lines computing `pubDate`: empty unless the raw date text is
non-empty and `time.Parse` succeeds, in which case it is the re-format
of the parsed time. `parseFormat fmt str` stands for Go's
`time.Parse(fmt, str)` followed by `t.Format("2006-01-02 15:04:05")`,
returning `none` exactly when `time.Parse` errors. -/
def resolvedPubDate (parseFormat : String → String → Option String)
    (config : SiteConfig) (s : ItemContainer) : String :=
  if resolvedDateText config s ≠ "" then
    match parseFormat config.dateFormat (resolvedDateText config s) with
    | some formatted => formatted
    | none => ""
  else ""

/-- Body of the `doc.Find(config.ItemSelector).Each` closure in
`fetchAndGenerateRSS` (`main.go` lines 191-219) for one container:
resolve the fields as above and append an `Item` — whose guid is its
link — only when both title and (normalized) link are non-empty. -/
def extractItem (parseFormat : String → String → Option String)
    (config : SiteConfig) (s : ItemContainer) : Option Item :=
  if resolvedTitle config s ≠ "" ∧ resolvedLink config s ≠ "" then
    some { title := resolvedTitle config s
           link := resolvedLink config s
           description := resolvedDesc config s
           pubDate := resolvedPubDate parseFormat config s
           guid := resolvedLink config s }
  else none

/-- `fetchAndGenerateRSS` from `main.go`: look up the config (error
`unknownSite` when absent), fetch the document (error `fetchFailed`
when the collaborator fails), extract the items in document order, and
wrap them in the feed. `fetch` stands for `goquery.NewDocument`. -/
def fetchAndGenerateRSS (fetch : String → Except String QueryDoc)
    (parseFormat : String → String → Option String)
    (site : String) : Except FetchError RSSFeed :=
  match getSiteConfig site with
  | none => .error (.unknownSite site)
  | some config =>
    match fetch config.url with
    | .error e => .error (.fetchFailed e)
    | .ok doc =>
      let items := (doc.find config.itemSelector).filterMap (extractItem parseFormat config)
      .ok { version := "2.0"
            channel :=
              { title := config.name
                link := config.url
                description := "RSS feed for " ++ config.name
                items := items } }

/-- `refreshCache` from `main.go`: run the pipeline; on failure only
log and return, leaving the cache untouched; on success install the new
entry with expiry `now + ttl`. The Go function returns nothing, so the
model's return type (a `Cache`, never an error) captures that no error
propagates to the invoking goroutine. -/
def refreshCache (fetch : String → Except String QueryDoc)
    (parseFormat : String → String → Option String)
    (now : Nat) (site : String) (cache : Cache) : Cache :=
  match fetchAndGenerateRSS fetch parseFormat site with
  | .error _ => cache
  | .ok feed => cacheInsert site { feed := feed, expireAt := now + ttl } cache

/-- HTTP response written by the handler: either `http.Error` with a
status code and message, or a 200 `application/rss+xml` body encoding a
feed. -/
inductive Response where
  | httpError (status : Nat) (msg : String)
  | rss (feed : RSSFeed)
  deriving Repr, DecidableEq

/-- Status code of a response (an encoded feed is a 200). -/
def Response.statusCode : Response → Nat
  | .httpError status _ => status
  | .rss _ => 200

/-- Observable outcome of one `generateRSSHandler` invocation: the
response written, the cache after the handler's own synchronous
actions, whether the handler synchronously ran `fetchAndGenerateRSS`,
and whether it spawned `go refreshCache(site)` (the spawned goroutine's
effect is not part of the outcome — the caller does not wait for it). -/
structure HandlerOutcome where
  response : Response
  cache : Cache
  fetchInvoked : Bool
  refreshTriggered : Bool
  deriving Repr, DecidableEq

/-- `generateRSSHandler` from `main.go`: reject an empty `site`
parameter with 400; on a fresh cache hit (`time.Now().Before(ExpireAt)`)
encode the cached feed; on an expired hit encode the stale cached feed
and spawn a background refresh; on a miss run the pipeline
synchronously, mapping any error to a 500 `http.Error` and a success to
the encoded feed — without writing the cache. An absent query parameter
reads as `""` in Go, so the empty string models both absent and empty. -/
def generateRSSHandler (fetch : String → Except String QueryDoc)
    (parseFormat : String → String → Option String)
    (now : Nat) (site : String) (cache : Cache) : HandlerOutcome :=
  if site = "" then
    { response := .httpError 400 ("Missing 'site' parameter")
      cache := cache, fetchInvoked := false, refreshTriggered := false }
  else
    match cacheLookup site cache with
    | some cached =>
      if now < cached.expireAt then
        { response := .rss cached.feed
          cache := cache, fetchInvoked := false, refreshTriggered := false }
      else
        { response := .rss cached.feed
          cache := cache, fetchInvoked := false, refreshTriggered := true }
    | none =>
      match fetchAndGenerateRSS fetch parseFormat site with
      | .error e =>
        { response := .httpError 500 ("Failed to generate RSS: " ++ e.message)
          cache := cache, fetchInvoked := true, refreshTriggered := false }
      | .ok feed =>
        { response := .rss feed
          cache := cache, fetchInvoked := true, refreshTriggered := false }

/-- Concrete fully-populated item container for the `"abc"` site:
title and href under `header a`, a summary under `p.note`, a parseable
date under `div.meta time`. -/
def containerFull : ItemContainer :=
  { text := fun sel =>
      if sel = "header a" then "Post One"
      else if sel = "p.note" then "First summary"
      else if sel = "div.meta time" then "2024-01-02"
      else ""
    attrHref := fun sel => if sel = "header a" then some ("/posts/1") else none }

/-- Concrete item container with a title but no link: the link selector
resolves to no href at all. -/
def containerNoLink : ItemContainer :=
  { text := fun sel => if sel = "header a" then "Post Two" else ""
    attrHref := fun _ => none }

/-- Concrete document whose `.content article` query yields the two
containers above, in document order. -/
def sampleDoc : QueryDoc :=
  { find := fun sel =>
      if sel = ".content article" then [containerFull, containerNoLink] else [] }

/-- Concrete fetch collaborator: serves `sampleDoc` for the `"abc"`
site's URL and fails for every other URL. -/
def sampleFetch : String → Except String QueryDoc :=
  fun url => if url = "https://www.abc.com/" then .ok sampleDoc
             else .error ("connection refused")

/-- Fetch collaborator that always fails. -/
def failFetch : String → Except String QueryDoc :=
  fun _ => .error ("connection refused")

/-- Concrete date collaborator: parses exactly `2024-01-02` in layout
`2006-01-02` and re-formats it the way the Go code does; every other
input fails to parse. -/
def sampleParse : String → String → Option String :=
  fun fmt s =>
    if fmt = "2006-01-02" ∧ s = "2024-01-02" then some ("2024-01-02 00:00:00")
    else none

/-- The feed `fetchAndGenerateRSS` produces for `"abc"` from
`sampleFetch`/`sampleParse`: note the second item, coming from the
container with no link, carries the bare site URL as its link. -/
def sampleAbcFeed : RSSFeed :=
  { version := "2.0"
    channel :=
      { title := "abc网站"
        link := "https://www.abc.com/"
        description := "RSS feed for abc网站"
        items :=
          [ { title := "Post One"
              link := "https://www.abc.com//posts/1"
              description := "First summary"
              pubDate := "2024-01-02 00:00:00"
              guid := "https://www.abc.com//posts/1" }
          , { title := "Post Two"
              link := "https://www.abc.com/"
              description := ""
              pubDate := ""
              guid := "https://www.abc.com/" } ] } }

/-- Small feed used as cached content in cache-path witnesses. -/
def tinyFeed : RSSFeed :=
  { version := "2.0"
    channel :=
      { title := "abc网站"
        link := "https://www.abc.com/"
        description := "RSS feed for abc网站"
        items := [] } }

/-- Claim C5: for every siteId whose CacheEntry exists and whose expiry
is in the future, the handler returns exactly that entry's feed and
performs no fetch, no refresh trigger, and no cache write. -/
theorem freshHit_returnsCachedFeed_noFetch
    (fetch : String → Except String QueryDoc)
    (parseFormat : String → String → Option String)
    (now : Nat) (site : String) (cache : Cache) (entry : FeedCache)
    (hsite : site ≠ "")
    (hhit : cacheLookup site cache = some entry)
    (hfresh : now < entry.expireAt) :
    generateRSSHandler fetch parseFormat now site cache =
      { response := .rss entry.feed, cache := cache
        fetchInvoked := false, refreshTriggered := false } := by
  simp [generateRSSHandler, hsite, hhit, hfresh]

/-- Witness for the fresh-hit theorem at a concrete fresh entry, with a
fetch collaborator that would fail if it were ever consulted. -/
theorem freshHit_returnsCachedFeed_noFetch_w :
    generateRSSHandler failFetch sampleParse 5 ("abc")
        [(("abc"), { feed := tinyFeed, expireAt := 100 })] =
      { response := .rss tinyFeed
        cache := [(("abc"), { feed := tinyFeed, expireAt := 100 })]
        fetchInvoked := false, refreshTriggered := false } :=
  freshHit_returnsCachedFeed_noFetch failFetch sampleParse 5 ("abc") _ _
    (by decide) (by rfl) (by decide)

/-- Claim C4: for every siteId whose CacheEntry exists but has expired,
the handler returns that stale entry's feed unchanged and triggers a
background refresh; the outcome does not include the refresh's effect,
since the caller does not wait for the spawned goroutine. -/
theorem staleHit_returnsStaleFeed_triggersRefresh
    (fetch : String → Except String QueryDoc)
    (parseFormat : String → String → Option String)
    (now : Nat) (site : String) (cache : Cache) (entry : FeedCache)
    (hsite : site ≠ "")
    (hhit : cacheLookup site cache = some entry)
    (hstale : ¬ now < entry.expireAt) :
    generateRSSHandler fetch parseFormat now site cache =
      { response := .rss entry.feed, cache := cache
        fetchInvoked := false, refreshTriggered := true } := by
  simp [generateRSSHandler, hsite, hhit, hstale]

/-- Witness for the stale-hit theorem at a concrete expired entry. -/
theorem staleHit_returnsStaleFeed_triggersRefresh_w :
    generateRSSHandler failFetch sampleParse 100 ("abc")
        [(("abc"), { feed := tinyFeed, expireAt := 5 })] =
      { response := .rss tinyFeed
        cache := [(("abc"), { feed := tinyFeed, expireAt := 5 })]
        fetchInvoked := false, refreshTriggered := true } :=
  staleHit_returnsStaleFeed_triggersRefresh failFetch sampleParse 100 ("abc") _ _
    (by decide) (by rfl) (by decide)

/-- Claim C1 counterexample: on a cold miss for `"abc"` with a
succeeding pipeline, the handler returns the assembled feed, yet the
cache afterwards still has no entry for `"abc"` — a subsequent request
for the same siteId is again a cold miss. -/
theorem coldMissSuccess_noEntryInstalled_cex :
    (generateRSSHandler sampleFetch sampleParse 0 ("abc") []).response = .rss sampleAbcFeed ∧
    cacheLookup ("abc") (generateRSSHandler sampleFetch sampleParse 0 ("abc") []).cache = none :=
  ⟨rfl, rfl⟩

/-- Claim C1 as amended: on a cold miss the handler runs the pipeline
synchronously and, on success, returns the feed to the caller but
installs no CacheEntry — the cache is returned unchanged. -/
theorem coldMissSuccess_returnsFeed_cacheUnchanged
    (fetch : String → Except String QueryDoc)
    (parseFormat : String → String → Option String)
    (now : Nat) (site : String) (cache : Cache) (feed : RSSFeed)
    (hsite : site ≠ "")
    (hmiss : cacheLookup site cache = none)
    (hok : fetchAndGenerateRSS fetch parseFormat site = .ok feed) :
    generateRSSHandler fetch parseFormat now site cache =
      { response := .rss feed, cache := cache
        fetchInvoked := true, refreshTriggered := false } := by
  simp [generateRSSHandler, hsite, hmiss, hok]

/-- Witness for the amended cold-miss-success theorem on the concrete
`"abc"` pipeline run. -/
theorem coldMissSuccess_returnsFeed_cacheUnchanged_w :
    generateRSSHandler sampleFetch sampleParse 0 ("abc") [] =
      { response := .rss sampleAbcFeed, cache := []
        fetchInvoked := true, refreshTriggered := false } :=
  coldMissSuccess_returnsFeed_cacheUnchanged sampleFetch sampleParse 0 ("abc") [] sampleAbcFeed
    (by decide) (by rfl) (by rfl)

/-- Claim C7: on a cold miss whose pipeline run fails, the handler
returns a 500 error carrying the pipeline's message and the cache is
unchanged, so no CacheEntry is created for that siteId. -/
theorem coldMissFailure_errorNoEntry
    (fetch : String → Except String QueryDoc)
    (parseFormat : String → String → Option String)
    (now : Nat) (site : String) (cache : Cache) (e : FetchError)
    (hsite : site ≠ "")
    (hmiss : cacheLookup site cache = none)
    (herr : fetchAndGenerateRSS fetch parseFormat site = .error e) :
    generateRSSHandler fetch parseFormat now site cache =
      { response := .httpError 500 ("Failed to generate RSS: " ++ e.message)
        cache := cache, fetchInvoked := true, refreshTriggered := false } ∧
    cacheLookup site (generateRSSHandler fetch parseFormat now site cache).cache = none := by
  refine ⟨by simp [generateRSSHandler, hsite, hmiss, herr], ?_⟩
  simp [generateRSSHandler, hsite, hmiss, herr]

/-- Witness for the cold-miss-failure theorem: the `"example"` site is
configured, but the concrete fetch collaborator refuses its URL. -/
theorem coldMissFailure_errorNoEntry_w :
    generateRSSHandler failFetch sampleParse 0 ("example") [] =
      { response := .httpError 500 ("Failed to generate RSS: connection refused")
        cache := [], fetchInvoked := true, refreshTriggered := false } ∧
    cacheLookup ("example") (generateRSSHandler failFetch sampleParse 0 ("example") []).cache = none :=
  coldMissFailure_errorNoEntry failFetch sampleParse 0 ("example") []
    (.fetchFailed ("connection refused")) (by decide) (by rfl) (by rfl)

/-- Claim C10: a request whose `site` query parameter is absent or
empty (Go reads both as the empty string) yields a 400 response with
the exact message `Missing 'site' parameter`, leaves the cache
untouched, and performs neither a fetch nor a refresh trigger. -/
theorem missingSiteParam_badRequest_noEffects
    (fetch : String → Except String QueryDoc)
    (parseFormat : String → String → Option String)
    (now : Nat) (cache : Cache) :
    generateRSSHandler fetch parseFormat now ("") cache =
      { response := .httpError 400 ("Missing 'site' parameter")
        cache := cache, fetchInvoked := false, refreshTriggered := false } := by
  simp [generateRSSHandler]

/-- Claim C6: when a refresh's pipeline run fails, `refreshCache`
returns the cache mapping exactly as it was — the prior entry for the
site (if any) is untouched, nothing is deleted — and its return type
(`Cache`, not an error) reflects that no error propagates to the
invoking goroutine. -/
theorem refreshFailure_cacheUntouched
    (fetch : String → Except String QueryDoc)
    (parseFormat : String → String → Option String)
    (now : Nat) (site : String) (cache : Cache) (e : FetchError)
    (herr : fetchAndGenerateRSS fetch parseFormat site = .error e) :
    refreshCache fetch parseFormat now site cache = cache := by
  simp [refreshCache, herr]

/-- Witness for the failed-refresh theorem: a failing refresh of
`"example"` leaves a cache holding a stale `"example"` entry intact. -/
theorem refreshFailure_cacheUntouched_w :
    refreshCache failFetch sampleParse 0 ("example")
        [(("example"), { feed := tinyFeed, expireAt := 3 })] =
      [(("example"), { feed := tinyFeed, expireAt := 3 })] :=
  refreshFailure_cacheUntouched failFetch sampleParse 0 ("example")
    [(("example"), { feed := tinyFeed, expireAt := 3 })]
    (.fetchFailed ("connection refused")) (by rfl)

/-- Claim C2 counterexample: a document with two item containers — one
fully populated, one whose link selector resolves to no href at all —
yields a feed with two entries, not one: the missing-link container
still produces an item, and the extractor does give it an item (its
link is the bare site URL). -/
theorem missingLink_stillEmitsEntry_cex :
    fetchAndGenerateRSS sampleFetch sampleParse ("abc") = .ok sampleAbcFeed ∧
    sampleAbcFeed.channel.items.length = 2 ∧
    (extractItem sampleParse abcConfig containerNoLink).isSome = true :=
  ⟨rfl, rfl, rfl⟩

/-- Claim C2 as amended: a container whose link selector resolves to no
match or an empty href is not dropped when its title is non-empty;
because the empty raw link does not start with `"http"`, the site's
base URL is prepended to it, and whenever the base URL is non-empty the
validation gate passes and the emitted entry's link is exactly the base
URL. Only when title (or the base URL as well as the link) is empty is
the container dropped, so two containers — one fully populated, one
missing a link but titled — yield two entries. -/
theorem missingLink_entryLinkIsBaseURL
    (parseFormat : String → String → Option String)
    (config : SiteConfig) (s : ItemContainer)
    (ht : resolvedTitle config s ≠ "")
    (hl : resolvedRawLink config s = "")
    (hu : config.url ≠ "") :
    (extractItem parseFormat config s).map Item.link = some config.url := by
  have hsw : strStartsWith ("") ("http") = false := by decide
  have hlink : resolvedLink config s = config.url := by
    simp [resolvedLink, hl, hsw]
  simp [extractItem, ht, hlink, hu]

/-- Witness for the amended missing-link theorem at the concrete
titled, link-less container of the `"abc"` site. -/
theorem missingLink_entryLinkIsBaseURL_w :
    (extractItem sampleParse abcConfig containerNoLink).map Item.link =
      some ("https://www.abc.com/") :=
  missingLink_entryLinkIsBaseURL sampleParse abcConfig containerNoLink
    (by decide) (by rfl) (by decide)

/-- Claim C3: for every resolved link that does not start with the
recognized absolute-URL marker `"http"`, the emitted entry's link is
the site URL concatenated with the raw link verbatim — no separator
normalization. -/
theorem relativeLink_concatVerbatim
    (parseFormat : String → String → Option String)
    (config : SiteConfig) (s : ItemContainer)
    (ht : resolvedTitle config s ≠ "")
    (hrel : strStartsWith (resolvedRawLink config s) ("http") = false)
    (hne : config.url ++ resolvedRawLink config s ≠ "") :
    (extractItem parseFormat config s).map Item.link =
      some (config.url ++ resolvedRawLink config s) := by
  have hlink : resolvedLink config s = config.url ++ resolvedRawLink config s := by
    simp [resolvedLink, hrel]
  simp [extractItem, ht, hlink, hne]

/-- Witness for the verbatim-concatenation theorem at the spec's own
example: base URL `https://abc.com/` plus raw link `/posts/1` produces
exactly `https://abc.com//posts/1`, double slash included. -/
theorem relativeLink_concatVerbatim_w :
    (extractItem sampleParse
        { abcConfig with url := "https://abc.com/" } containerFull).map Item.link =
      some ("https://abc.com//posts/1") :=
  relativeLink_concatVerbatim sampleParse
    { abcConfig with url := "https://abc.com/" } containerFull
    (by decide) (by rfl) (by decide)

/-- Claim C8: a container with non-empty title and non-empty normalized
link whose raw date text is absent (empty) or fails to parse still
yields an entry with title, link, description and guid populated and an
empty publication timestamp — a date-parse failure is never an error. -/
theorem dateFailure_entryWithoutTimestamp
    (parseFormat : String → String → Option String)
    (config : SiteConfig) (s : ItemContainer)
    (ht : resolvedTitle config s ≠ "")
    (hl : resolvedLink config s ≠ "")
    (hd : resolvedDateText config s = "" ∨
          parseFormat config.dateFormat (resolvedDateText config s) = none) :
    extractItem parseFormat config s =
      some { title := resolvedTitle config s
             link := resolvedLink config s
             description := resolvedDesc config s
             pubDate := ""
             guid := resolvedLink config s } := by
  have hpd : resolvedPubDate parseFormat config s = "" := by
    rcases hd with hd | hd
    · simp [resolvedPubDate, hd]
    · by_cases hds : resolvedDateText config s = ""
      · simp [resolvedPubDate, hds]
      · simp [resolvedPubDate, hds, hd]
  simp [extractItem, ht, hl, hpd]

/-- Witness for the unparseable-date theorem: a container with title,
link, description and a date text the date collaborator rejects yields
an entry with an empty pubDate. -/
theorem dateFailure_entryWithoutTimestamp_w :
    extractItem sampleParse abcConfig
      { text := fun sel =>
          if sel = "header a" then "Post Three"
          else if sel = "p.note" then "Third summary"
          else if sel = "div.meta time" then "not-a-date"
          else ""
        attrHref := fun sel => if sel = "header a" then some ("/posts/3") else none } =
      some { title := "Post Three"
             link := "https://www.abc.com//posts/3"
             description := "Third summary"
             pubDate := ""
             guid := "https://www.abc.com//posts/3" } :=
  dateFailure_entryWithoutTimestamp sampleParse abcConfig _
    (by decide) (by decide) (Or.inr (by rfl))

/-- Claim C9 counterexample: a cold-miss request for the unconfigured
site `"nosite"` — an UnknownSite pipeline error — is answered with
status 500, a 5xx response, not the 4xx the claim requires. -/
theorem unknownSite_maps500_cex :
    (generateRSSHandler sampleFetch sampleParse 0 ("nosite") []).response =
      .httpError 500 ("Failed to generate RSS: site configuration not found: nosite") ∧
    (generateRSSHandler sampleFetch sampleParse 0 ("nosite") []).response.statusCode / 100 = 5 :=
  ⟨rfl, rfl⟩

/-- Claim C9 as amended: the handler does not classify pipeline errors;
every failing cold-miss request — UnknownSite and FetchFailed alike —
is answered with a single 500 Internal Server Error carrying the
formatted pipeline message. -/
theorem coldMissErrors_allMapTo500
    (fetch : String → Except String QueryDoc)
    (parseFormat : String → String → Option String)
    (now : Nat) (site : String) (cache : Cache) (e : FetchError)
    (hsite : site ≠ "")
    (hmiss : cacheLookup site cache = none)
    (herr : fetchAndGenerateRSS fetch parseFormat site = .error e) :
    (generateRSSHandler fetch parseFormat now site cache).response.statusCode = 500 := by
  simp [generateRSSHandler, hsite, hmiss, herr, Response.statusCode]

/-- Witness for the uniform-500 theorem at the unknown-site error
shape. -/
theorem coldMissErrors_allMapTo500_w :
    (generateRSSHandler failFetch sampleParse 0 ("nosite") []).response.statusCode = 500 :=
  coldMissErrors_allMapTo500 failFetch sampleParse 0 ("nosite") []
    (.unknownSite ("nosite")) (by decide) (by rfl) (by rfl)
